import Mathlib

/-!
Verification of the Pocket-AI-Chat credential vault.

Shallow embedding of `src/utils/auth.py` (class `AuthManager`) and the
gate logic of `src/ui/auth_components.py` (`AuthWindow.handle_submit`).

The sqlite table `auth (id INTEGER PRIMARY KEY AUTOINCREMENT, api_key, pin_code)`
is modelled as a list of rows plus the autoincrement counter.  Python
exceptions raised by the storage layer are modelled by a `fault` flag on a
raw `Except`-valued layer; the `try/except` wrappers of `AuthManager`
catch that layer's errors and turn them into `False` / `None`, exactly as
the source does.  The call to `secrets.randbelow(10000)` is modelled by a
parameter `n : Nat` constrained to `n < 10000`.
-/

namespace PocketAI

/-- One row of the sqlite `auth` table: `id`, `api_key`, `pin_code`
(`created_at` is never read by the program and is omitted). -/
structure Row where
  id : Nat
  api_key : String
  pin_code : String
deriving Repr, DecidableEq

/-- The sqlite database file: the rows of the `auth` table in insertion
order, plus the `AUTOINCREMENT` counter for the next `id`. -/
structure Store where
  rows : List Row
  nextId : Nat
deriving Repr, DecidableEq

/-- A freshly created database (`init_db` creates the empty table;
sqlite AUTOINCREMENT starts at 1). -/
def Store.empty : Store := ⟨[], 1⟩

/-- `DELETE FROM auth` (the AUTOINCREMENT sequence is not reset). -/
def deleteAll (s : Store) : Store := { s with rows := [] }

/-- `INSERT INTO auth (api_key, pin_code) VALUES (?, ?)`. -/
def insertRow (key pin : String) (s : Store) : Store :=
  { rows := s.rows ++ [⟨s.nextId, key, pin⟩], nextId := s.nextId + 1 }

/-- Of two rows, the one the `ORDER BY id DESC LIMIT 1` query prefers. -/
def laterRow (a b : Row) : Row := if a.id ≤ b.id then b else a

/-- `SELECT api_key, pin_code FROM auth ORDER BY id DESC LIMIT 1` followed by
`fetchone`: the row with the largest `id`, or `none` on an empty table. -/
def selectLatest (s : Store) : Option (String × String) :=
  (s.rows.foldl (fun acc r =>
      match acc with
      | none => some r
      | some r0 => some (laterRow r0 r)) none).map
    (fun r => (r.api_key, r.pin_code))

/-- The raw storage layer under `save_credentials`: connect, `DELETE`,
`INSERT`, commit.  A `fault` models a Python exception anywhere in that
block; sqlite's transactional commit means a failed block leaves the file
unchanged. -/
def rawSave (fault : Bool) (key pin : String) (s : Store) :
    Except String Store :=
  if fault then Except.error "sqlite3.OperationalError"
  else Except.ok (insertRow key pin (deleteAll s))

/-- `AuthManager.save_credentials`: the `try/except` wrapper around
`rawSave`; on an exception it logs and returns `False`, never re-raises. -/
def save_credentials (fault : Bool) (key pin : String) (s : Store) :
    Store × Bool :=
  match rawSave fault key pin s with
  | Except.ok s2 => (s2, true)
  | Except.error _ => (s, false)

/-- The raw storage layer under `get_credentials`: connect, `SELECT`,
`fetchone`. -/
def rawGet (fault : Bool) (s : Store) :
    Except String (Option (String × String)) :=
  if fault then Except.error "sqlite3.OperationalError"
  else Except.ok (selectLatest s)

/-- `AuthManager.get_credentials`: the `try/except` wrapper around
`rawGet`; on an exception it logs and returns `None`. -/
def get_credentials (fault : Bool) (s : Store) : Option (String × String) :=
  match rawGet fault s with
  | Except.ok r => r
  | Except.error _ => none

/-- The raw storage layer under `clear_credentials`: connect, `DELETE`,
commit. -/
def rawClear (fault : Bool) (s : Store) : Except String Store :=
  if fault then Except.error "sqlite3.OperationalError"
  else Except.ok (deleteAll s)

/-- `AuthManager.clear_credentials`: the `try/except` wrapper around
`rawClear`; on an exception it logs and returns `False`. -/
def clear_credentials (fault : Bool) (s : Store) : Store × Bool :=
  match rawClear fault s with
  | Except.ok s2 => (s2, true)
  | Except.error _ => (s, false)

/-- Python `str.strip()` with no argument: remove leading and trailing
whitespace characters. -/
def pyStrip (s : String) : String :=
  String.mk
    (((s.data.dropWhile Char.isWhitespace).reverse.dropWhile
        Char.isWhitespace).reverse)

/-- Python `str.zfill(w)`: left-pad with `'0'` to width `w` (a string
already at least `w` long is returned unchanged; `str(n)` for a natural
number has no sign, so the sign case of `zfill` never applies). -/
def zfill (w : Nat) (str : String) : String :=
  if w ≤ str.length then str
  else String.mk (List.replicate (w - str.length) '0') ++ str

/-- `AuthManager.generate_pin`: `str(secrets.randbelow(10000)).zfill(4)`,
with the random draw modelled by the parameter `n`. -/
def generate_pin (n : Nat) : String := zfill 4 (Nat.repr n)

/-- `AuthManager.validate_pin`: re-read the stored credentials; `False`
when the table is empty, otherwise exact string equality of the submitted
pin against the stored `pin_code`. -/
def validate_pin (fault : Bool) (input_pin : String) (s : Store) : Bool :=
  match get_credentials fault s with
  | none => false
  | some cred => input_pin == cred.2

/-- The observable outcome of one `AuthWindow.handle_submit` call, one
constructor per exit path of the source. -/
inductive Signal where
  /-- status text `"Введите API ключ или PIN"`: both fields empty. -/
  | enterKeyOrPin
  /-- `on_auth_success(secret)` after a matching PIN. -/
  | authSuccess (secret : String)
  /-- status text `"Неверный PIN код"`: stored record exists, PIN mismatch. -/
  | invalidPin
  /-- status text `"Введите API ключ для первого входа"`: store empty and
  no API key supplied — the no-credentials / first-run path. -/
  | enterKeyFirstRun
  /-- status text showing the generated PIN followed by
  `on_auth_success(api_key)`: first-run save succeeded. -/
  | pinIssuedAndAuth (pin secret : String)
  /-- status text `"Ошибка сохранения данных"`: first-run save failed. -/
  | saveError
deriving Repr, DecidableEq

/-- `AuthWindow.handle_submit` in the fault-free storage scenario.
`randN` models the `secrets.randbelow(10000)` draw inside
`generate_pin`; `apiKeyField` and `pinField` are the raw text-field
values, stripped (`.strip()`) on entry exactly as the source does. -/
def handle_submit (randN : Nat) (apiKeyField pinField : String) (s : Store) :
    Signal × Store :=
  let api_key := pyStrip apiKeyField
  let pin := pyStrip pinField
  if api_key = "" ∧ pin = "" then (Signal.enterKeyOrPin, s)
  else
    match get_credentials false s with
    | some stored =>
      if validate_pin false pin s then (Signal.authSuccess stored.1, s)
      else (Signal.invalidPin, s)
    | none =>
      if api_key = "" then (Signal.enterKeyFirstRun, s)
      else
        let pin_code := generate_pin randN
        let res := save_credentials false api_key pin_code s
        if res.2 then (Signal.pinIssuedAndAuth pin_code api_key, res.1)
        else (Signal.saveError, res.1)

/-- The AuthGate state the spec derives from the store contents:
empty store → `NoCredentials`, record present → `AwaitingPin`. -/
inductive AuthState where
  | noCredentials
  | awaitingPin
  | authenticated
deriving Repr, DecidableEq

/-- Startup state of the gate, computed from the store. -/
def gateState (s : Store) : AuthState :=
  match selectLatest s with
  | none => AuthState.noCredentials
  | some _ => AuthState.awaitingPin

/-- One storage-mutating operation, for stating the single-record
invariant over arbitrary operation sequences. -/
inductive Op where
  | opSave (fault : Bool) (key pin : String)
  | opClear (fault : Bool)

/-- Apply one operation to the store. -/
def runOp (s : Store) (op : Op) : Store :=
  match op with
  | Op.opSave f k p => (save_credentials f k p s).1
  | Op.opClear f => (clear_credentials f s).1

/-- Apply a sequence of operations to the store. -/
def runOps (s : Store) (ops : List Op) : Store := ops.foldl runOp s

/-! ### Helper lemmas -/

lemma string_data_append (l : List Char) (s : String) :
    (String.mk l ++ s).data = l ++ s.data := by cases s; rfl

lemma string_length_data (s : String) : s.length = s.data.length := rfl

lemma pyStrip_empty : pyStrip "" = "" := rfl

lemma get_credentials_false (s : Store) :
    get_credentials false s = selectLatest s := rfl

lemma save_credentials_false (k p : String) (s : Store) :
    save_credentials false k p s =
      ({ rows := [⟨s.nextId, k, p⟩], nextId := s.nextId + 1 }, true) := rfl

lemma save_credentials_true (k p : String) (s : Store) :
    save_credentials true k p s = (s, false) := rfl

lemma clear_credentials_false (s : Store) :
    clear_credentials false s = (deleteAll s, true) := rfl

lemma clear_credentials_true (s : Store) :
    clear_credentials true s = (s, false) := rfl

lemma selectLatest_single (i m : Nat) (k p : String) :
    selectLatest ⟨[⟨i, k, p⟩], m⟩ = some (k, p) := rfl

lemma get_after_save (k p : String) (s : Store) :
    get_credentials false (save_credentials false k p s).1 = some (k, p) := rfl

lemma digitChar_isDigit_of_lt (k : Nat) (h : k < 10) :
    (Nat.digitChar k).isDigit = true := by
  interval_cases k <;> decide

lemma toDigitsCore_all_digits :
    ∀ (f n : Nat) (l : List Char),
      (∀ c ∈ l, c.isDigit = true) →
      ∀ c ∈ Nat.toDigitsCore 10 f n l, c.isDigit = true := by
  intro f
  induction f with
  | zero => intro n l hl; simpa [Nat.toDigitsCore] using hl
  | succ f ih =>
    intro n l hl
    simp only [Nat.toDigitsCore]
    have hd : (Nat.digitChar (n % 10)).isDigit = true :=
      digitChar_isDigit_of_lt _ (Nat.mod_lt _ (by norm_num))
    split
    · intro c hc
      rcases List.mem_cons.mp hc with rfl | hc
      · exact hd
      · exact hl c hc
    · refine ih (n / 10) _ ?_
      intro c hc
      rcases List.mem_cons.mp hc with rfl | hc
      · exact hd
      · exact hl c hc

lemma repr_all_digits (n : Nat) : ∀ c ∈ (Nat.repr n).data, c.isDigit = true := by
  intro c hc
  exact toDigitsCore_all_digits (n + 1) n [] (by simp) c hc

lemma runOp_length_le_one (s : Store) (op : Op) (h : s.rows.length ≤ 1) :
    (runOp s op).rows.length ≤ 1 := by
  cases op with
  | opSave f k p =>
    cases f
    · simp [runOp, save_credentials_false]
    · simpa [runOp, save_credentials_true] using h
  | opClear f =>
    cases f
    · simp [runOp, clear_credentials_false, deleteAll]
    · simpa [runOp, clear_credentials_true] using h

lemma runOps_length_le_one :
    ∀ (ops : List Op) (s : Store), s.rows.length ≤ 1 →
      (runOps s ops).rows.length ≤ 1 := by
  intro ops
  induction ops with
  | nil => intro s h; exact h
  | cons op ops ih =>
    intro s h
    exact ih (runOp s op) (runOp_length_le_one s op h)

/-! ### Claim theorems -/

/-- Claim C1: PIN verification uses exact string equality against the stored
pin.  With a stored record `(sec, p)` and a submitted pin `q` (already
caller-stripped and non-empty, so the attempt reaches the comparison):
`validate_pin` succeeds iff `q = p` exactly; at the gate, `handle_submit`
authenticates carrying `sec` iff `q = p`, and otherwise leaves the store
unchanged (state `AwaitingPin`) and signals `InvalidPin`.  No
normalization: length mismatch is just inequality. -/
theorem pin_validation_exact_equality (n : Nat) (sec p q : String) (s : Store)
    (hs : get_credentials false s = some (sec, p))
    (hq : pyStrip q = q) (hne : q ≠ "") :
    (validate_pin false q s = true ↔ q = p)
    ∧ ((handle_submit n "" q s).1 = Signal.authSuccess sec ↔ q = p)
    ∧ (q ≠ p → handle_submit n "" q s = (Signal.invalidPin, s)) := by
  have hval : validate_pin false q s = (q == p) := by
    simp [validate_pin, hs]
  refine ⟨?_, ?_, ?_⟩
  · rw [hval]; exact beq_iff_eq
  · simp [handle_submit, pyStrip_empty, hq, hne, hs, hval]
    by_cases hqp : q = p <;> simp [hqp]
  · intro hqp
    simp [handle_submit, pyStrip_empty, hq, hne, hs, hval, hqp]

/-- Witness for C1 at the spec's own example: stored record
`("s", "1234")`, submitted pin `"1234"`. -/
theorem pin_validation_exact_equality_witness :
    get_credentials false ⟨[⟨1, "s", "1234"⟩], 2⟩ = some ("s", "1234")
    ∧ pyStrip "1234" = "1234"
    ∧ ("1234" : String) ≠ ""
    ∧ ((handle_submit 0 "" "1234" ⟨[⟨1, "s", "1234"⟩], 2⟩).1
         = Signal.authSuccess "s" ↔ ("1234" : String) = "1234") :=
  ⟨rfl, rfl, by decide,
   (pin_validation_exact_equality 0 "s" "1234" "1234" ⟨[⟨1, "s", "1234"⟩], 2⟩
      rfl rfl (by decide)).2.1⟩

/-- Claim C2: round trip.  If `save_credentials` reports success then an
immediately following `get_credentials` returns exactly the saved
`(secret, pin)` pair, byte for byte. -/
theorem save_load_round_trip (f : Bool) (sec pin : String) (s : Store)
    (_hsec : sec ≠ "")
    (hok : (save_credentials f sec pin s).2 = true) :
    get_credentials false (save_credentials f sec pin s).1 = some (sec, pin) := by
  cases f
  · exact get_after_save sec pin s
  · simpa [save_credentials_true] using hok

/-- Witness for C2 at `("sk-abc", "0042")` on the empty store. -/
theorem save_load_round_trip_witness :
    ("sk-abc" : String) ≠ ""
    ∧ (save_credentials false "sk-abc" "0042" Store.empty).2 = true
    ∧ get_credentials false (save_credentials false "sk-abc" "0042" Store.empty).1
        = some ("sk-abc", "0042") :=
  ⟨by decide, rfl,
   save_load_round_trip false "sk-abc" "0042" Store.empty (by decide) rfl⟩

/-- Claim C3: replace semantics.  After a successful `save(s1,p1)` followed
by a successful `save(s2,p2)`, `get_credentials` returns exactly
`(s2, p2)`, and the table holds exactly the one new row — never the first
pair, never both, never none. -/
theorem save_replace_semantics (f1 f2 : Bool) (s1 p1 s2 p2 : String) (st : Store)
    (_h1 : (save_credentials f1 s1 p1 st).2 = true)
    (h2 : (save_credentials f2 s2 p2 (save_credentials f1 s1 p1 st).1).2 = true) :
    get_credentials false
        (save_credentials f2 s2 p2 (save_credentials f1 s1 p1 st).1).1
      = some (s2, p2)
    ∧ (save_credentials f2 s2 p2 (save_credentials f1 s1 p1 st).1).1.rows
      = [⟨(save_credentials f1 s1 p1 st).1.nextId, s2, p2⟩] := by
  cases f2
  · exact ⟨get_after_save _ _ _, rfl⟩
  · simpa [save_credentials_true] using h2

/-- Witness for C3: two successive saves on the empty store. -/
theorem save_replace_semantics_witness :
    (save_credentials false "k1" "1111" Store.empty).2 = true
    ∧ (save_credentials false "k2" "2222"
         (save_credentials false "k1" "1111" Store.empty).1).2 = true
    ∧ get_credentials false
        (save_credentials false "k2" "2222"
          (save_credentials false "k1" "1111" Store.empty).1).1
      = some ("k2", "2222") :=
  ⟨rfl, rfl,
   (save_replace_semantics false false "k1" "1111" "k2" "2222" Store.empty
      rfl rfl).1⟩

/-- Claim C4: single-record invariant.  Starting from the empty store,
after any sequence of `save_credentials` / `clear_credentials` calls
(faulting or not) the table holds at most one row; and every successful
save is the atomic delete-then-insert, leaving exactly the one new row. -/
theorem single_record_invariant (ops : List Op) :
    (runOps Store.empty ops).rows.length ≤ 1
    ∧ ∀ (s : Store) (k p : String),
        save_credentials false k p s =
          ({ rows := [⟨s.nextId, k, p⟩], nextId := s.nextId + 1 }, true) := by
  refine ⟨runOps_length_le_one ops Store.empty (by simp [Store.empty]), ?_⟩
  intro s k p
  exact save_credentials_false k p s

/-- Claim C5: a PIN check attempted against an empty store is routed to the
no-credentials / first-run path (`"Введите API ключ для первого входа"`),
a signal distinct from `InvalidPin`; the store stays empty, i.e. the gate
is in `NoCredentials`. -/
theorem pin_check_empty_store_first_run (n : Nat) (q : String) (s : Store)
    (hempty : get_credentials false s = none) (hq : pyStrip q ≠ "") :
    handle_submit n "" q s = (Signal.enterKeyFirstRun, s)
    ∧ gateState s = AuthState.noCredentials
    ∧ Signal.enterKeyFirstRun ≠ Signal.invalidPin := by
  refine ⟨?_, ?_, by simp⟩
  · simp [handle_submit, pyStrip_empty, hq, hempty]
  · rw [get_credentials_false] at hempty
    simp [gateState, hempty]

/-- Witness for C5: pin `"1234"` submitted against the empty store. -/
theorem pin_check_empty_store_first_run_witness :
    get_credentials false Store.empty = none
    ∧ pyStrip "1234" ≠ ""
    ∧ handle_submit 0 "" "1234" Store.empty
        = (Signal.enterKeyFirstRun, Store.empty) :=
  ⟨rfl, by decide,
   (pin_check_empty_store_first_run 0 "1234" Store.empty rfl (by decide)).1⟩

/-- Claim C6: in `AwaitingPin` (a record is stored), submitting an empty or
whitespace-only pin through the gate is rejected with the distinct
empty-input signal (`"Введите API ключ или PIN"`), not `InvalidPin`; the
store is untouched and the gate stays in `AwaitingPin`. -/
theorem empty_pin_rejected_distinctly (n : Nat) (q : String) (s : Store)
    (r : String × String)
    (hstored : get_credentials false s = some r) (hq : pyStrip q = "") :
    handle_submit n "" q s = (Signal.enterKeyOrPin, s)
    ∧ gateState s = AuthState.awaitingPin
    ∧ Signal.enterKeyOrPin ≠ Signal.invalidPin := by
  refine ⟨?_, ?_, by simp⟩
  · simp [handle_submit, pyStrip_empty, hq]
  · rw [get_credentials_false] at hstored
    simp [gateState, hstored]

/-- Witness for C6: whitespace-only pin `"   "` against a stored record. -/
theorem empty_pin_rejected_distinctly_witness :
    get_credentials false ⟨[⟨1, "s", "1234"⟩], 2⟩ = some ("s", "1234")
    ∧ pyStrip "   " = ""
    ∧ handle_submit 0 "" "   " ⟨[⟨1, "s", "1234"⟩], 2⟩
        = (Signal.enterKeyOrPin, ⟨[⟨1, "s", "1234"⟩], 2⟩) :=
  ⟨rfl, rfl,
   (empty_pin_rejected_distinctly 0 "   " ⟨[⟨1, "s", "1234"⟩], 2⟩
      ("s", "1234") rfl rfl).1⟩

/-- Claim C7: storage errors never escape as exceptions.  Whenever the raw
storage layer raises during `save_credentials`, the wrapper returns
`(s, false)` (failure, store unchanged) instead of propagating; whenever it
raises during `get_credentials`, the wrapper returns `none`; likewise
`clear_credentials` returns failure.  The wrappers are total functions into
plain result types, so no raw error reaches the UI layer. -/
theorem storage_errors_never_escape (f : Bool) (k p : String) (s : Store) :
    (∀ e, rawSave f k p s = Except.error e →
       save_credentials f k p s = (s, false))
    ∧ (∀ e, rawGet f s = Except.error e → get_credentials f s = none)
    ∧ (∀ e, rawClear f s = Except.error e →
       clear_credentials f s = (s, false)) := by
  refine ⟨?_, ?_, ?_⟩ <;> intro e he <;>
    simp [save_credentials, get_credentials, clear_credentials, he]

/-- Witness for C7: a faulting save, load and clear on the empty store. -/
theorem storage_errors_never_escape_witness :
    save_credentials true "sk" "1234" Store.empty = (Store.empty, false)
    ∧ get_credentials true Store.empty = none
    ∧ clear_credentials true Store.empty = (Store.empty, false) :=
  ⟨(storage_errors_never_escape true "sk" "1234" Store.empty).1
      "sqlite3.OperationalError" rfl,
   (storage_errors_never_escape true "sk" "1234" Store.empty).2.1
      "sqlite3.OperationalError" rfl,
   (storage_errors_never_escape true "sk" "1234" Store.empty).2.2
      "sqlite3.OperationalError" rfl⟩

/-- Claim C8: PIN format.  For every draw `n` of `secrets.randbelow(10000)`
(i.e. `n < 10000`), `generate_pin n = str(n).zfill(4)` is a string of
exactly 4 characters, each a decimal digit. -/
theorem generate_pin_format (n : Nat) (h : n < 10000) :
    (generate_pin n).length = 4
    ∧ ∀ c ∈ (generate_pin n).data, c.isDigit = true := by
  have hlen : (Nat.repr n).length ≤ 4 :=
    Nat.repr_length n 4 (by norm_num) (by norm_num [h])
  unfold generate_pin zfill
  by_cases h4 : 4 ≤ (Nat.repr n).length
  · have he : (Nat.repr n).length = 4 := le_antisymm hlen h4
    simp only [h4, if_true]
    exact ⟨he, repr_all_digits n⟩
  · simp only [h4, if_false]
    constructor
    · rw [string_length_data, string_data_append]
      rw [string_length_data] at hlen
      simp [List.length_append]
      omega
    · intro c hc
      rw [string_data_append] at hc
      rcases List.mem_append.mp hc with hm | hm
      · rw [List.eq_of_mem_replicate hm]; decide
      · exact repr_all_digits n c hm

/-- Witness for C8 at the draw `n = 42` (pin `"0042"`). -/
theorem generate_pin_format_witness :
    42 < 10000
    ∧ ((generate_pin 42).length = 4
       ∧ ∀ c ∈ (generate_pin 42).data, c.isDigit = true) :=
  ⟨by norm_num, generate_pin_format 42 (by norm_num)⟩

/-- Claim C9: attempt independence and no state corruption.  A PIN attempt
against a store holding a record never mutates the store (no lockout
counter, no backoff state), and its outcome is a function of the submitted
pin and the stored record alone: two stores holding the same record give
the same outcome, whatever their history or the random draw. -/
theorem attempt_independence (n1 n2 : Nat) (q : String) (s1 s2 : Store)
    (r : String × String)
    (h1 : get_credentials false s1 = some r)
    (h2 : get_credentials false s2 = some r) :
    (handle_submit n1 "" q s1).2 = s1
    ∧ (handle_submit n1 "" q s1).1 = (handle_submit n2 "" q s2).1 := by
  by_cases hq : pyStrip q = ""
  · constructor <;> simp [handle_submit, pyStrip_empty, hq]
  · have hv1 : validate_pin false (pyStrip q) s1 = (pyStrip q == r.2) := by
      simp [validate_pin, h1]
    have hv2 : validate_pin false (pyStrip q) s2 = (pyStrip q == r.2) := by
      simp [validate_pin, h2]
    constructor
    · simp [handle_submit, pyStrip_empty, hq, h1, hv1]
      by_cases hm : pyStrip q = r.2 <;> simp [hm]
    · simp [handle_submit, pyStrip_empty, hq, h1, h2, hv1, hv2]
      by_cases hm : pyStrip q = r.2 <;> simp [hm]

/-- Witness for C9: a failed attempt (`"0000"` against stored `"1234"`)
on two stores holding the same record but different autoincrement
counters. -/
theorem attempt_independence_witness :
    get_credentials false ⟨[⟨1, "s", "1234"⟩], 2⟩ = some ("s", "1234")
    ∧ get_credentials false ⟨[⟨7, "s", "1234"⟩], 8⟩ = some ("s", "1234")
    ∧ (handle_submit 0 "" "0000" ⟨[⟨1, "s", "1234"⟩], 2⟩).2
        = ⟨[⟨1, "s", "1234"⟩], 2⟩ :=
  ⟨rfl, rfl,
   (attempt_independence 0 1 "0000" ⟨[⟨1, "s", "1234"⟩], 2⟩
      ⟨[⟨7, "s", "1234"⟩], 8⟩ ("s", "1234") rfl rfl).1⟩

/-- Claim C10 (implicit): `save_credentials` enforces none of the stated
input constraints — any pair of strings, including an empty secret or a
non-4-digit pin, is persisted verbatim with success, and the following
load returns exactly that pair. -/
theorem save_accepts_unvalidated_input (sec pin : String) (s : Store) :
    (save_credentials false sec pin s).2 = true
    ∧ get_credentials false (save_credentials false sec pin s).1
        = some (sec, pin) :=
  ⟨rfl, get_after_save sec pin s⟩

end PocketAI
